import Mathlib

/-!
Verification of the audio-transcription front end (`Audio_to_Text.py`).

The file shallowly embeds the program's data model and the pieces of logic
the specification talks about: the SRT subtitle formatter, the plain-text
artifact, the language / task-mode selection passed to the model, the
model cache contract, and the session controller's error handling and
scratch-file lifecycle.  Times are modelled as rationals (the source works
with Python floats; every property below is about exact small values and
the floor/mod structure of the formatting, where float arithmetic is
exact).
-/

namespace AudioToText

/-- A transcription segment, as in `result["segments"]` entries:
`{start, end, text}`.  `start`/`end` are seconds. -/
structure Segment where
  start : ℚ
  stop : ℚ
  text : String
deriving DecidableEq, Repr

/-- The structured transcription result `{text, language, segments}`
returned by `model.transcribe`. -/
structure TranscriptionResult where
  text : String
  language : Option String
  segments : List Segment
deriving DecidableEq, Repr

/-- Python `int(x)` on a number: truncation toward zero
(`x.num.tdiv x.den`, with `Int.tdiv` truncating toward zero). -/
def int_ (x : ℚ) : ℤ := x.num.tdiv (x.den : ℤ)

/-- Python `x // y` (float floor division), as an exact rational. -/
def floordiv (x y : ℚ) : ℚ := ((⌊x / y⌋ : ℤ) : ℚ)

/-- Python `x % y` (float modulo, sign of the divisor):
`x - y * (x // y)`. -/
def mod_ (x y : ℚ) : ℚ := x - y * floordiv x y


/-- Python `f"{n:02}"`: decimal rendering left-padded with `0` to width 2. -/
def fmt02 (n : ℤ) : String :=
  let s := toString n
  if s.length < 2 then "0" ++ s else s

/-- Python `s.strip()`: the string with leading and trailing whitespace
removed. -/
def strip (s : String) : String :=
  ⟨((s.data.dropWhile Char.isWhitespace).reverse.dropWhile Char.isWhitespace).reverse⟩

/-- Splits a character list at every occurrence of `sep` (used to talk
about the colon-separated fields of a rendered time value). -/
def splitOnChar (sep : Char) : List Char → List (List Char)
  | [] => [[]]
  | c :: rest =>
    if c = sep then [] :: splitOnChar sep rest
    else
      match splitOnChar sep rest with
      | [] => [[c]]
      | f :: fs => (c :: f) :: fs

/-- The colon-separated fields of a string. -/
def colonFields (s : String) : List String :=
  (splitOnChar ':' s.data).map List.asString

/-- One time value as rendered in the SRT time-range line
(line 158 of the source): `{int(t//60):02}:{int(t%60):02}:00`. -/
def timeStamp (t : ℚ) : String :=
  fmt02 (int_ (floordiv t 60)) ++ ":" ++ fmt02 (int_ (mod_ t 60)) ++ ":00"

/-- The SRT time-range line for one segment:
`start --> end` with both ends rendered by `timeStamp`. -/
def timeRangeLine (seg : Segment) : String :=
  timeStamp seg.start ++ " --> " ++ timeStamp seg.stop

/-- The block appended to `srt_output` for segment number `i` (line 158):
`f"{i}\n{...time range...}\n{seg['text'].strip()}\n\n"`. -/
def srtBlock (i : ℕ) (seg : Segment) : String :=
  toString i ++ "\n" ++ timeRangeLine seg ++ "\n" ++ strip seg.text ++ "\n\n"

/-- The `srt_output` accumulation loop (lines 153-158):
`for i, seg in enumerate(segments, 1): srt_output += block`. -/
def srt_output (segments : List Segment) : String :=
  (List.enumFrom 1 segments).foldl (fun acc p => acc ++ srtBlock p.1 p.2) ""

/-- The SRT blocks for a segment list, numbered from `n` (proof helper). -/
def blocksFrom (n : ℕ) : List Segment → List String
  | [] => []
  | seg :: rest => srtBlock n seg :: blocksFrom (n + 1) rest

/-- A subtitle block as §4.3 of the spec describes it, word for word: an
index line, a time-range line, the segment text, and a blank separator
line. -/
def specSubtitleBlock (n : ℕ) (seg : Segment) : String :=
  (toString n ++ "\n") ++ (timeRangeLine seg ++ "\n") ++ (strip seg.text ++ "\n") ++ "\n"

/-- One time value as rendered in the on-screen segment expander
(lines 172-173): `f"{int(t//60)}:{int(t%60):02d}"` — minutes unpadded. -/
def displayTime (t : ℚ) : String :=
  toString (int_ (floordiv t 60)) ++ ":" ++ fmt02 (int_ (mod_ t 60))

/-- The on-screen segment line (line 174):
`f"**[{start_time} - {end_time}]** {seg['text']}"` — text NOT stripped. -/
def displayLine (seg : Segment) : String :=
  "**[" ++ displayTime seg.start ++ " - " ++ displayTime seg.stop ++ "]** " ++ seg.text

/-- The plain-text download artifact (line 146): `data=result["text"]`. -/
def to_plain_text (result : TranscriptionResult) : String :=
  result.text

/-- The two download artifacts offered after a successful run:
TXT (line 146) and SRT (line 162). -/
structure Artifacts where
  txt : String
  srt : String
deriving DecidableEq, Repr

/-- Builds both download artifacts from the transcription result. -/
def makeArtifacts (result : TranscriptionResult) : Artifacts :=
  { txt := to_plain_text result, srt := srt_output result.segments }

/-! ### Language and task selection (lines 37-58, 66-69, 109-110) -/

/-- The `languages` dict (lines 37-58): display name to optional ISO code;
auto-detect maps to `None` (no language constraint). -/
def languages : List (String × Option String) :=
  [("Auto-detect", none),
   ("English", some "en"),
   ("Spanish", some "es"),
   ("French", some "fr"),
   ("German", some "de"),
   ("Italian", some "it"),
   ("Portuguese", some "pt"),
   ("Dutch", some "nl"),
   ("Russian", some "ru"),
   ("Chinese", some "zh"),
   ("Japanese", some "ja"),
   ("Korean", some "ko"),
   ("Arabic", some "ar"),
   ("Hindi", some "hi"),
   ("Turkish", some "tr"),
   ("Polish", some "pl"),
   ("Swedish", some "sv"),
   ("Danish", some "da"),
   ("Norwegian", some "no"),
   ("Finnish", some "fi")]

/-- The dict access `languages[selected_language]` (line 109). -/
def language_code (selected_language : String) : Option (Option String) :=
  languages.lookup selected_language

/-- The task selection (line 110):
`task_type = "translate" if translate_to_english else "transcribe"`. -/
def task_type (translate_to_english : Bool) : String :=
  if translate_to_english then "translate" else "transcribe"

/-- The "Translate to English" checkbox (lines 66-69) is created with no
initial value; the UI library renders such a checkbox unchecked, so the
task-mode boolean defaults to off. -/
def translate_to_english_default : Bool := false

/-- The keyword arguments of the `model.transcribe` call (lines 112-117). -/
structure TranscribeArgs where
  path : String
  language : Option String
  task : String
  verbose : Bool
deriving DecidableEq, Repr

/-- Assembles the `model.transcribe` invocation for a selected language
name and task-mode boolean; `none` when the language name is not an entry
of the `languages` dict (the UI only offers its keys). -/
def mkTranscribeArgs (tmp_path : String) (selected_language : String)
    (translate_to_english : Bool) : Option TranscribeArgs :=
  (language_code selected_language).map fun code =>
    { path := tmp_path
      language := code
      task := task_type translate_to_english
      verbose := false }

/-! ### Model cache (lines 77-81) -/

/-- Modelled from the spec: the caching of `load_whisper_model` is done by
the `@st.cache_resource` decorator of the UI framework, whose code is not
part of this repository; §4.1 of the spec gives its contract as
`get_or_load(size)`.  The state is the explicit key-to-handle table; the
loader is the decorated body (`whisper.load_model`, also external).  The
returned `Bool` records whether a load was performed by the call. -/
def get_or_load {H : Type} (load : String → Except String H)
    (cache : List (String × H)) (size : String) :
    Except String H × List (String × H) × Bool :=
  match cache.lookup size with
  | some h => (.ok h, cache, false)
  | none =>
    match load size with
    | .ok h => (.ok h, (size, h) :: cache, true)
    | .error e => (.error e, cache, true)

/-- A concrete loader for witnesses: accepts exactly the five sizes the
model-size selectbox offers (line 31). -/
def demoLoad (size : String) : Except String String :=
  if size ∈ ["tiny", "base", "small", "medium", "large"] then .ok ("model-" ++ size)
  else .error ("unknown model size " ++ size)

/-! ### Session controller (lines 97-178) -/

/-- Outcome of one press of the Transcribe button: the results are
displayed, or the `except Exception` handler (lines 176-178) shows a
single error notice. -/
inductive Outcome (R : Type) where
  | done : R → Outcome R
  | failed : String → Outcome R
deriving DecidableEq, Repr

/-- The user-visible failure notice (line 177):
`f"❌ An error occurred during processing: {e}"`. -/
def errorNotice (e : String) : String :=
  "❌ An error occurred during processing: " ++ e

/-- The effectful steps of one run, as oracles: each may raise (modelled
as `Except` with the exception message).  `partialCreate` tells whether a
failing scratch-file write had already created the file on disk
(`NamedTemporaryFile(delete=False)` creates it before `write` runs). -/
structure RunEnv (M R : Type) where
  loadModel : Except String M
  writeScratch : Except String Unit
  partialCreate : Bool
  transcribe : M → Except String R
  deleteScratch : Except String Unit

/-- The body of the Transcribe button handler (lines 98-178): load the
model, write the scratch file, transcribe, delete the scratch file, then
display; any exception is caught by the single handler and rendered as
`errorNotice`.  The second component tracks whether the scratch file is
on disk afterwards. -/
def runSession {M R : Type} (env : RunEnv M R) : Outcome R × Bool :=
  match env.loadModel with
  | .error e => (.failed (errorNotice e), false)
  | .ok m =>
    match env.writeScratch with
    | .error e => (.failed (errorNotice e), env.partialCreate)
    | .ok _ =>
      match env.transcribe m with
      | .error e => (.failed (errorNotice e), true)
      | .ok r =>
        match env.deleteScratch with
        | .error e => (.failed (errorNotice e), true)
        | .ok _ => (.done r, false)

/-- A run on which every step succeeds. -/
def envOk : RunEnv String String :=
  { loadModel := .ok "model-small"
    writeScratch := .ok ()
    partialCreate := true
    transcribe := fun _ => .ok "transcript"
    deleteScratch := .ok () }

/-- A run on which the model load raises. -/
def envLoadFail : RunEnv String String :=
  { loadModel := .error "load failed"
    writeScratch := .ok ()
    partialCreate := true
    transcribe := fun _ => .ok "transcript"
    deleteScratch := .ok () }

/-- A run on which the transcription invocation raises after the scratch
file was written. -/
def envTransFail : RunEnv String String :=
  { loadModel := .ok "model-small"
    writeScratch := .ok ()
    partialCreate := true
    transcribe := fun _ => .error "bad codec"
    deleteScratch := .ok () }

/-! ### Helper lemmas -/

/-- On nonnegative rationals Python `int` (truncation) is the floor. -/
theorem int_eq_floor_of_nonneg (x : ℚ) (h : 0 ≤ x) : int_ x = ⌊x⌋ := by
  rw [int_, Int.tdiv_eq_ediv (Rat.num_nonneg.mpr h) (by exact_mod_cast x.den_pos.le),
    Rat.floor_def]

/-- Python `t % 60` is nonnegative (the modulus has the divisor's sign). -/
theorem mod_sixty_nonneg (t : ℚ) : 0 ≤ mod_ t 60 := by
  rw [mod_, floordiv]
  have h1 : (⌊t / 60⌋ : ℚ) ≤ t / 60 := Int.floor_le (t / 60)
  have h2 : (60 : ℚ) * (⌊t / 60⌋ : ℚ) ≤ 60 * (t / 60) :=
    mul_le_mul_of_nonneg_left h1 (by norm_num)
  have h3 : (60 : ℚ) * (t / 60) = t := by ring
  linarith

/-- The seconds field of a rendered time value is the floor of `t % 60`. -/
theorem seconds_int (t : ℚ) : int_ (mod_ t 60) = ⌊mod_ t 60⌋ :=
  int_eq_floor_of_nonneg _ (mod_sixty_nonneg t)

/-- The minutes field of a rendered time value is `⌊t / 60⌋` when `t` is
nonnegative. -/
theorem minutes_int (t : ℚ) (h : 0 ≤ t) : int_ (floordiv t 60) = ⌊t / 60⌋ := by
  have hnn : (0 : ℚ) ≤ floordiv t 60 := by
    rw [floordiv]
    exact_mod_cast Int.floor_nonneg.mpr (by positivity)
  rw [int_eq_floor_of_nonneg _ hnn, floordiv, Int.floor_intCast]

/-- Evaluation form of `timeStamp`. -/
theorem timeStamp_eval (t : ℚ) (m s : ℤ) (h0 : 0 ≤ t)
    (hm : ⌊t / 60⌋ = m) (hs : ⌊mod_ t 60⌋ = s) :
    timeStamp t = fmt02 m ++ ":" ++ fmt02 s ++ ":00" := by
  rw [timeStamp, minutes_int t h0, seconds_int, hm, hs]

/-- Evaluation form of `displayTime`. -/
theorem displayTime_eval (t : ℚ) (m s : ℤ) (h0 : 0 ≤ t)
    (hm : ⌊t / 60⌋ = m) (hs : ⌊mod_ t 60⌋ = s) :
    displayTime t = toString m ++ ":" ++ fmt02 s := by
  rw [displayTime, minutes_int t h0, seconds_int, hm, hs]

/-- Joining a non-empty list of strings peels off the head. -/
theorem join_cons (s : String) (l : List String) :
    String.join (s :: l) = s ++ String.join l := by
  apply String.ext
  simp [String.data_join]

/-- There is one SRT block per segment. -/
theorem blocksFrom_length (n : ℕ) (segs : List Segment) :
    (blocksFrom n segs).length = segs.length := by
  induction segs generalizing n with
  | nil => rfl
  | cons seg rest ih => simp [blocksFrom, ih]

/-- The `k`-th block of `blocksFrom n` is the block of the `k`-th segment,
numbered `n + k`. -/
theorem blocksFrom_get (n k : ℕ) (segs : List Segment) :
    (blocksFrom n segs)[k]? = (segs[k]?).map fun seg => srtBlock (n + k) seg := by
  induction segs generalizing n k with
  | nil => simp [blocksFrom]
  | cons seg rest ih =>
    cases k with
    | zero => simp [blocksFrom]
    | succ k =>
      simp only [blocksFrom, List.getElem?_cons_succ, ih (n + 1) k]
      have h : n + 1 + k = n + (k + 1) := by omega
      rw [h]

/-- The `srt_output` accumulation loop concatenates the blocks in order. -/
theorem foldl_blocks (segs : List Segment) (n : ℕ) (acc : String) :
    (List.enumFrom n segs).foldl (fun acc p => acc ++ srtBlock p.1 p.2) acc =
      acc ++ String.join (blocksFrom n segs) := by
  induction segs generalizing n acc with
  | nil => simp [blocksFrom, String.join]
  | cons seg rest ih =>
    simp only [List.enumFrom, List.foldl, blocksFrom, join_cons]
    rw [ih (n + 1) (acc ++ srtBlock n seg), String.append_assoc]

/-- The spec's description of a block matches what the code emits. -/
theorem specSubtitleBlock_eq (n : ℕ) (seg : Segment) :
    specSubtitleBlock n seg = srtBlock n seg := by
  have h : ("\n" : String) ++ "\n" = "\n\n" := by decide
  simp only [specSubtitleBlock, srtBlock, String.append_assoc, h]

/-- A lookup in a table with pairwise-distinct keys finds any member. -/
theorem lookup_of_mem {β : Type} (name : String) (b : β) :
    ∀ l : List (String × β), (name, b) ∈ l → (l.map Prod.fst).Nodup →
      l.lookup name = some b := by
  intro l
  induction l with
  | nil => intro hmem _; simp at hmem
  | cons kv t ih =>
    intro hmem hnd
    obtain ⟨k, v⟩ := kv
    simp only [List.map_cons, List.nodup_cons] at hnd
    rcases List.mem_cons.mp hmem with heq | hmemt
    · injection heq with h1 h2
      subst h1
      subst h2
      simp [List.lookup]
    · have hne : name ≠ k := by
        rintro rfl
        exact hnd.1 (List.mem_map_of_mem Prod.fst hmemt)
      have hbeq : (name == k) = false := beq_eq_false_iff_ne.mpr hne
      simp only [List.lookup, hbeq]
      exact ih hmemt hnd.2

/-- Evaluation of `timeStamp` at 65 seconds. -/
theorem timeStamp_65 : timeStamp (65 : ℚ) = "01:05:00" := by
  rw [timeStamp_eval 65 1 5 (by norm_num) (by norm_num) (by norm_num [mod_, floordiv])]
  decide

/-! ### Claim theorems -/

/-- C1 (counterexample): the formatter does NOT hardcode the first
colon-separated field to "00".  For the segment with start 65 and end 70,
the rendered start time is "01:05:00": its first colon-separated field is
"01" (the minutes), not "00", and the string is not "00:01:05". -/
theorem c1_hour_field_counterexample :
    timeStamp (65 : ℚ) = "01:05:00" ∧
    colonFields (timeStamp (65 : ℚ)) = ["01", "05", "00"] ∧
    (colonFields (timeStamp (65 : ℚ)))[0]? ≠ some "00" ∧
    timeStamp (65 : ℚ) ≠ "00:01:05" ∧
    srt_output [⟨65, 70, "hi"⟩] = "1\n01:05:00 --> 01:10:00\nhi\n\n" := by
  have h70 : timeStamp (70 : ℚ) = "01:10:00" := by
    rw [timeStamp_eval 70 1 10 (by norm_num) (by norm_num) (by norm_num [mod_, floordiv])]
    decide
  have hblock : srtBlock 1 ⟨65, 70, "hi"⟩ = "1\n01:05:00 --> 01:10:00\nhi\n\n" := by
    simp only [srtBlock, timeRangeLine]
    rw [timeStamp_65, h70]
    decide
  refine ⟨timeStamp_65, by rw [timeStamp_65]; decide, by rw [timeStamp_65]; decide,
    by rw [timeStamp_65]; decide, ?_⟩
  simp only [srt_output, List.enumFrom, List.foldl]
  rw [String.empty_append, hblock]

/-- C1 (amended): each time value is rendered as three colon-separated
fields of which the THIRD (not the first) is hardcoded to "00"; the first
field is the minutes `floor(t/60)` with no wraparound at 60 minutes, the
second the seconds `t % 60` truncated to an integer.  For start 65 the
rendered start time is "01:05:00" (minute "01", second "05", hardcoded
trailing "00"); 3661 seconds render as "61:01:00" (no wraparound), and
6.5 seconds as "00:06:00" (truncation). -/
theorem c1_amended_time_fields :
    (∀ (i : ℕ) (seg : Segment), srtBlock i seg =
        toString i ++ "\n" ++ (timeStamp seg.start ++ " --> " ++ timeStamp seg.stop) ++ "\n"
          ++ strip seg.text ++ "\n\n")
    ∧ (∀ t : ℚ, 0 ≤ t →
        timeStamp t = fmt02 ⌊t / 60⌋ ++ ":" ++ fmt02 ⌊mod_ t 60⌋ ++ ":00")
    ∧ timeStamp (65 : ℚ) = "01:05:00"
    ∧ colonFields (timeStamp (65 : ℚ)) = ["01", "05", "00"]
    ∧ timeStamp (3661 : ℚ) = "61:01:00"
    ∧ timeStamp (13/2 : ℚ) = "00:06:00" := by
  refine ⟨fun i seg => rfl, fun t ht => timeStamp_eval t _ _ ht rfl rfl, timeStamp_65,
    by rw [timeStamp_65]; decide, ?_, ?_⟩
  · rw [timeStamp_eval 3661 61 1 (by norm_num) (by norm_num) (by norm_num [mod_, floordiv])]
    decide
  · rw [timeStamp_eval (13/2) 0 6 (by norm_num) (by norm_num) (by norm_num [mod_, floordiv])]
    decide

/-- C1 (amended, witness): the general field decomposition instantiated at
t = 65. -/
theorem c1_amended_time_fields_witness :
    (0 : ℚ) ≤ 65 ∧
    timeStamp (65 : ℚ) =
      fmt02 ⌊(65 : ℚ) / 60⌋ ++ ":" ++ fmt02 ⌊mod_ (65 : ℚ) 60⌋ ++ ":00" :=
  ⟨by norm_num, c1_amended_time_fields.2.1 65 (by norm_num)⟩

/-- C2: for every non-empty segment list the subtitle output is exactly
the concatenation of one block per segment, the `k`-th block carrying
index `k+1` and consisting of an index line, a time-range line, the
segment text line and a blank separator line (`specSubtitleBlock`). -/
theorem c2_one_numbered_block_per_segment (segs : List Segment) (h : segs ≠ []) :
    ∃ blocks : List String,
      blocks.length = segs.length ∧
      (∀ k : ℕ, blocks[k]? = (segs[k]?).map fun seg => specSubtitleBlock (k + 1) seg) ∧
      srt_output segs = String.join blocks := by
  refine ⟨blocksFrom 1 segs, blocksFrom_length 1 segs, fun k => ?_, ?_⟩
  · rw [blocksFrom_get]
    cases segs[k]? with
    | none => rfl
    | some seg => simp [specSubtitleBlock_eq, Nat.add_comm]
  · simp only [srt_output]
    rw [foldl_blocks, String.empty_append]

/-- C2 (witness): the block decomposition at the one-segment list
`[{start: 65, end: 70, text: "hi"}]`. -/
theorem c2_one_numbered_block_per_segment_witness :
    ([(⟨65, 70, "hi"⟩ : Segment)] ≠ []) ∧
    (∃ blocks : List String,
      blocks.length = [(⟨65, 70, "hi"⟩ : Segment)].length ∧
      (∀ k : ℕ, blocks[k]? = ([(⟨65, 70, "hi"⟩ : Segment)][k]?).map
        fun seg => specSubtitleBlock (k + 1) seg) ∧
      srt_output [⟨65, 70, "hi"⟩] = String.join blocks) :=
  ⟨List.cons_ne_nil _ _, c2_one_numbered_block_per_segment _ (List.cons_ne_nil _ _)⟩

/-- C3: the plain-text artifact is exactly `result.full_text`, unchanged;
likewise the TXT member of the artifact pair. -/
theorem c3_plain_text_identity (result : TranscriptionResult) :
    to_plain_text result = result.text ∧ (makeArtifacts result).txt = result.text :=
  ⟨rfl, rfl⟩

/-- C4: a cache miss performs the load and stores the handle under the
size key; the subsequent call with the same size returns the identical
stored handle, leaves the cache unchanged, and performs no load. -/
theorem c4_cache_loads_once {H : Type} (load : String → Except String H)
    (cache : List (String × H)) (size : String) (h : H)
    (hmiss : cache.lookup size = none) (hload : load size = .ok h) :
    get_or_load load cache size = (.ok h, (size, h) :: cache, true) ∧
    get_or_load load ((size, h) :: cache) size = (.ok h, (size, h) :: cache, false) := by
  constructor
  · simp only [get_or_load, hmiss, hload]
  · simp [get_or_load, List.lookup]

/-- C4 (witness): `get_or_load "base"` called twice from the empty cache
returns the identical handle both times; only the first call loads. -/
theorem c4_cache_loads_once_witness :
    (([] : List (String × String)).lookup "base" = none ∧
      demoLoad "base" = .ok "model-base") ∧
    (get_or_load demoLoad [] "base" = (.ok "model-base", [("base", "model-base")], true) ∧
     get_or_load demoLoad [("base", "model-base")] "base" =
       (.ok "model-base", [("base", "model-base")], false)) :=
  ⟨⟨rfl, rfl⟩, c4_cache_loads_once demoLoad [] "base" "model-base" rfl rfl⟩

/-- C5: a failing load propagates the error, leaves the cache unchanged
with no entry for the key, and a later retry attempts the load again. -/
theorem c5_load_failure_no_cache_entry {H : Type} (load : String → Except String H)
    (cache : List (String × H)) (size e : String)
    (hmiss : cache.lookup size = none) (hload : load size = .error e) :
    get_or_load load cache size = (.error e, cache, true) ∧
    ((get_or_load load cache size).2.1).lookup size = none ∧
    get_or_load load (get_or_load load cache size).2.1 size = (.error e, cache, true) := by
  have h1 : get_or_load load cache size = (.error e, cache, true) := by
    simp only [get_or_load, hmiss, hload]
  exact ⟨h1, by rw [h1]; exact hmiss, by rw [h1]; simp only [get_or_load, hmiss, hload]⟩

/-- C5 (witness): an unsupported size string fails and leaves no cache
entry for the key. -/
theorem c5_load_failure_no_cache_entry_witness :
    (([] : List (String × String)).lookup "huge" = none ∧
      demoLoad "huge" = .error "unknown model size huge") ∧
    (get_or_load demoLoad [] "huge" = (.error "unknown model size huge", [], true) ∧
     ((get_or_load demoLoad [] "huge").2.1).lookup "huge" = none ∧
     get_or_load demoLoad (get_or_load demoLoad [] "huge").2.1 "huge" =
       (.error "unknown model size huge", [], true)) :=
  ⟨⟨rfl, rfl⟩, c5_load_failure_no_cache_entry demoLoad [] "huge" "unknown model size huge" rfl rfl⟩

/-- C6: every run either displays results or fails with the single generic
notice carrying the underlying message, and each of the four fallible
steps (model load, scratch write, transcription, scratch delete) is
converted on failure to exactly that notice; the model is a pure function
of the step results, so no step is retried. -/
theorem c6_errors_caught_at_boundary {M R : Type} (env : RunEnv M R) :
    ((∃ r, (runSession env).1 = .done r) ∨ (∃ e, (runSession env).1 = .failed (errorNotice e)))
    ∧ (∀ e, env.loadModel = .error e → (runSession env).1 = .failed (errorNotice e))
    ∧ (∀ m e, env.loadModel = .ok m → env.writeScratch = .error e →
        (runSession env).1 = .failed (errorNotice e))
    ∧ (∀ m e, env.loadModel = .ok m → env.writeScratch = .ok () → env.transcribe m = .error e →
        (runSession env).1 = .failed (errorNotice e))
    ∧ (∀ m r e, env.loadModel = .ok m → env.writeScratch = .ok () → env.transcribe m = .ok r →
        env.deleteScratch = .error e → (runSession env).1 = .failed (errorNotice e)) := by
  obtain ⟨lm, ws, pc, tr, ds⟩ := env
  refine ⟨?_, ?_, ?_, ?_, ?_⟩
  · cases lm with
    | error e => exact Or.inr ⟨e, rfl⟩
    | ok m =>
      cases ws with
      | error e => exact Or.inr ⟨e, rfl⟩
      | ok u =>
        cases u
        cases htr : tr m with
        | error e => exact Or.inr ⟨e, by simp [runSession, htr]⟩
        | ok r =>
          cases ds with
          | error e => exact Or.inr ⟨e, by simp [runSession, htr]⟩
          | ok u2 => exact Or.inl ⟨r, by cases u2; simp [runSession, htr]⟩
  · intro e he
    subst he
    rfl
  · intro m e h1 h2
    subst h1
    subst h2
    rfl
  · intro m e h1 h2 h3
    subst h1
    subst h2
    replace h3 : tr m = Except.error e := h3
    simp [runSession, h3]
  · intro m r e h1 h2 h3 h4
    subst h1
    subst h2
    subst h4
    replace h3 : tr m = Except.ok r := h3
    simp [runSession, h3]

/-- C6 (witness): a failing model load and a failing transcription are
both rendered as the generic notice with the underlying message. -/
theorem c6_errors_caught_at_boundary_witness :
    envLoadFail.loadModel = .error "load failed" ∧
    (runSession envLoadFail).1 = .failed (errorNotice "load failed") ∧
    (runSession envTransFail).1 = .failed (errorNotice "bad codec") :=
  ⟨rfl, (c6_errors_caught_at_boundary envLoadFail).2.1 "load failed" rfl,
   (c6_errors_caught_at_boundary envTransFail).2.2.2.1 "model-small" "bad codec" rfl rfl rfl⟩

/-- C7: on every run reaching Done the scratch file has been deleted; when
model load fails nothing was written; when the scratch write fails the
file stays as the failing write left it (deletion skipped); when the
transcription fails after a successful write the scratch file remains on
disk. -/
theorem c7_scratch_file_lifecycle {M R : Type} (env : RunEnv M R) :
    (∀ r, (runSession env).1 = .done r → (runSession env).2 = false)
    ∧ (∀ e, env.loadModel = .error e → (runSession env).2 = false)
    ∧ (∀ m e, env.loadModel = .ok m → env.writeScratch = .error e →
        (runSession env).2 = env.partialCreate)
    ∧ (∀ m e, env.loadModel = .ok m → env.writeScratch = .ok () → env.transcribe m = .error e →
        (runSession env).2 = true)
    ∧ (∀ m r, env.loadModel = .ok m → env.writeScratch = .ok () → env.transcribe m = .ok r →
        env.deleteScratch = .ok () → (runSession env).2 = false) := by
  obtain ⟨lm, ws, pc, tr, ds⟩ := env
  refine ⟨?_, ?_, ?_, ?_, ?_⟩
  · intro r hr
    cases lm with
    | error e => simp [runSession] at hr
    | ok m =>
      cases ws with
      | error e => simp [runSession] at hr
      | ok u =>
        cases u
        cases htr : tr m with
        | error e => simp [runSession, htr] at hr
        | ok r2 =>
          cases ds with
          | error e => simp [runSession, htr] at hr
          | ok u2 => cases u2; simp [runSession, htr]
  · intro e he
    subst he
    rfl
  · intro m e h1 h2
    subst h1
    subst h2
    rfl
  · intro m e h1 h2 h3
    subst h1
    subst h2
    replace h3 : tr m = Except.error e := h3
    simp [runSession, h3]
  · intro m r h1 h2 h3 h4
    subst h1
    subst h2
    subst h4
    replace h3 : tr m = Except.ok r := h3
    simp [runSession, h3]

/-- C7 (witness): the fully successful run ends with the scratch file
deleted, and the run whose transcription raises leaves it on disk. -/
theorem c7_scratch_file_lifecycle_witness :
    (runSession envOk).1 = .done "transcript" ∧
    (runSession envOk).2 = false ∧
    (runSession envTransFail).2 = true :=
  ⟨rfl, (c7_scratch_file_lifecycle envOk).1 "transcript" rfl,
   (c7_scratch_file_lifecycle envTransFail).2.2.2.1 "model-small" "bad codec" rfl rfl rfl⟩

/-- C8: auto-detect passes no language constraint (`None`); every other
entry of the `languages` dict passes its ISO code; the task-mode boolean
maps off to "transcribe" and on to "translate", and its default is off. -/
theorem c8_language_and_task_selection :
    language_code "Auto-detect" = some none
    ∧ (∀ name code, (name, some code) ∈ languages → language_code name = some (some code))
    ∧ (∀ path name b code, language_code name = some code →
        mkTranscribeArgs path name b =
          some { path := path, language := code, task := task_type b, verbose := false })
    ∧ task_type false = "transcribe" ∧ task_type true = "translate"
    ∧ translate_to_english_default = false
    ∧ task_type translate_to_english_default = "transcribe" := by
  refine ⟨rfl, ?_, ?_, rfl, rfl, rfl, rfl⟩
  · intro name code hmem
    exact lookup_of_mem name (some code) languages hmem (by decide)
  · intro path name b code hlk
    rw [mkTranscribeArgs, hlk]
    rfl

/-- C8 (witness): the Spanish entry passes "es", and auto-detect with the
default task-mode yields language `None` and task "transcribe". -/
theorem c8_language_and_task_selection_witness :
    (("Spanish", some "es") ∈ languages ∧ language_code "Spanish" = some (some "es")) ∧
    (language_code "Auto-detect" = some none ∧
      mkTranscribeArgs "/tmp/a.wav" "Auto-detect" false =
        some { path := "/tmp/a.wav", language := none, task := task_type false,
               verbose := false }) :=
  ⟨⟨by simp [languages], c8_language_and_task_selection.2.1 "Spanish" "es" (by simp [languages])⟩,
   ⟨rfl, c8_language_and_task_selection.2.2.1 "/tmp/a.wav" "Auto-detect" false none rfl⟩⟩

/-- C9: with an empty segment sequence the subtitle formatter yields the
empty string and the artifact pair is still produced (TXT unchanged, SRT
empty) — the formatter is total, so no error arises for zero segments. -/
theorem c9_empty_segments (result : TranscriptionResult) (h : result.segments = []) :
    srt_output result.segments = "" ∧
    makeArtifacts result = { txt := result.text, srt := "" } := by
  refine ⟨by rw [h]; rfl, ?_⟩
  simp [makeArtifacts, to_plain_text, h, srt_output, List.enumFrom, List.foldl]

/-- C9 (witness): the empty-segments result with full text "hello". -/
theorem c9_empty_segments_witness :
    (⟨"hello", some "en", []⟩ : TranscriptionResult).segments = [] ∧
    (srt_output (⟨"hello", some "en", []⟩ : TranscriptionResult).segments = "" ∧
     makeArtifacts (⟨"hello", some "en", []⟩ : TranscriptionResult) =
       { txt := (⟨"hello", some "en", []⟩ : TranscriptionResult).text, srt := "" }) :=
  ⟨rfl, c9_empty_segments ⟨"hello", some "en", []⟩ rfl⟩

/-- C10: the subtitle block embeds the segment text stripped of leading
and trailing whitespace, while the on-screen line and the plain-text
artifact use the text unmodified; at the segment with text " hi " the
subtitle carries "hi" whereas the screen shows " hi " — they differ. -/
theorem c10_strip_only_in_subtitles (i : ℕ) (seg : Segment) :
    srtBlock i seg =
      toString i ++ "\n" ++ timeRangeLine seg ++ "\n" ++ strip seg.text ++ "\n\n"
    ∧ displayLine seg =
      "**[" ++ displayTime seg.start ++ " - " ++ displayTime seg.stop ++ "]** " ++ seg.text
    ∧ to_plain_text = TranscriptionResult.text
    ∧ strip " hi " = "hi"
    ∧ strip " hi " ≠ " hi "
    ∧ srtBlock 1 ⟨0, 1, " hi "⟩ = "1\n00:00:00 --> 00:01:00\nhi\n\n"
    ∧ displayLine ⟨0, 1, " hi "⟩ = "**[0:00 - 0:01]**  hi " := by
  refine ⟨rfl, rfl, funext fun r => rfl, by decide, by decide, ?_, ?_⟩
  · simp only [srtBlock, timeRangeLine]
    rw [timeStamp_eval 0 0 0 (by norm_num) (by norm_num) (by norm_num [mod_, floordiv]),
        timeStamp_eval 1 0 1 (by norm_num) (by norm_num) (by norm_num [mod_, floordiv])]
    decide
  · simp only [displayLine]
    rw [displayTime_eval 0 0 0 (by norm_num) (by norm_num) (by norm_num [mod_, floordiv]),
        displayTime_eval 1 0 1 (by norm_num) (by norm_num) (by norm_num [mod_, floordiv])]
    decide

end AudioToText
